import Mathlib

/-!
Verification development for the conversation-state and response-enrichment
engine of the what-to-watch backend (`llm_motor.py`).

The Python source is shallowly embedded: the external language-model call and
the external catalog (TMDB) call are passed in as explicit oracle arguments of
type `Except`, the `ConversationBufferMemory` turn log is an explicit
`List Turn` threaded through the operations, and Python dictionaries produced
by `_get_movie_info` are embedded as association lists over a small JSON value
type `JVal`, so that presence of a key and a key mapped to `None` stay
distinguishable, exactly as in the Python dicts.
-/

set_option autoImplicit false

namespace WhatToWatch

/-- JSON-like values as produced by `response.json()` and stored in the
dicts of `_get_movie_info`.  Numbers are kept as integers: the code never
computes with them, it only moves them around. -/
inductive JVal where
  | null : JVal
  | bool : Bool → JVal
  | num : Int → JVal
  | str : String → JVal
  | arr : List JVal → JVal
  | obj : List (String × JVal) → JVal

/-- A Python dict with string keys, as returned by `_get_movie_info`. -/
abbrev Dict := List (String × JVal)

/-- First-match association-list lookup, the semantics of reading a key of a
Python dict built from string keys. -/
def dlookup (d : Dict) (k : String) : Option JVal :=
  match d with
  | [] => none
  | (k2, v) :: rest => if k2 = k then some v else dlookup rest k

/-- Python truthiness (`bool(x)`) on embedded JSON values. -/
def pyTruthy : JVal → Bool
  | .null => false
  | .bool b => b
  | .num n => n ≠ 0
  | .str s => s ≠ ""
  | .arr l => !l.isEmpty
  | .obj l => !l.isEmpty

/-- Is the value a Python `dict`? -/
def JVal.isObj : JVal → Bool
  | .obj _ => true
  | _ => false

/-- Is the value a Python `str`? -/
def JVal.isStr : JVal → Bool
  | .str _ => true
  | _ => false

/-- The string payload of a `.str` value (only read under an `isStr` guard). -/
def JVal.asStr : JVal → String
  | .str s => s
  | _ => ""

/-- Total lookup on a JSON object: `d.get(k)` once `d` is known to be a dict
(missing key yields `None`). -/
def jget (v : JVal) (k : String) : JVal :=
  match v with
  | .obj kvs => ((kvs.lookup k).getD .null)
  | _ => .null

/-- `data.get(k)`: raises (`AttributeError`) when `data` is not a dict,
otherwise returns the value or `None`. -/
def pyGet (v : JVal) (k : String) : Except Unit JVal :=
  match v with
  | .obj _ => .ok (jget v k)
  | _ => .error ()

/-- Python `len(x)`: defined on sequences and mappings, raises otherwise. -/
def pyLenE : JVal → Except Unit Nat
  | .arr l => .ok l.length
  | .str s => .ok s.length
  | .obj kvs => .ok kvs.length
  | _ => .error ()

/-- Python `x[0]`: first element of a list, one-character string of a
nonempty string; raises on a dict (no key `0`) and on non-subscriptables. -/
def pySub0 : JVal → Except Unit JVal
  | .arr (x :: _) => .ok x
  | .arr [] => .error ()
  | .str s => if s = "" then .error () else .ok (.str (String.mk [s.toList.head!]))
  | _ => .error ()

/-- Python `str(x)` as used by the f-string building the poster URL. -/
def pyStrF : JVal → String
  | .null => "None"
  | .bool b => if b then "True" else "False"
  | .num n => toString n
  | .str s => s
  | .arr _ => "[...]"
  | .obj _ => "{...}"

/-- `not self.tmdb_api_key`: the credential is absent from the environment
(`None`) or set to the empty string. -/
def pyKeyFalsy : Option String → Bool
  | none => true
  | some s => s = ""

/-- The degraded placeholder dict
`{"title": title, "poster_url": None, "overview": None}` that
`_get_movie_info` returns on the no-credential path and on every failure
path.  Note which keys it carries: `tmdb_title`, `release_date`,
`vote_average` and `tmdb_id` are absent, not set to `None`. -/
def placeholderInfo (title : String) : Dict :=
  [("title", .str title), ("poster_url", .null), ("overview", .null)]

/-- The body of the `try:` block of `_get_movie_info`, given the outcome of
`requests.get(...).json()` for this title (`.error` models a network failure
or a non-JSON body).  Returns `.error ()` when the Python block would raise,
`.ok none` when it would fall through without returning (falsy or empty
`results`), and `.ok (some d)` when it returns the populated dict `d`. -/
def get_movie_info_try (resp : Except Unit JVal) (title : String) :
    Except Unit (Option Dict) :=
  match resp with
  | .error e => .error e
  | .ok data =>
    match pyGet data "results" with
    | .error e => .error e
    | .ok results =>
      if pyTruthy results then
        match pyLenE results with
        | .error e => .error e
        | .ok n =>
          if n > 0 then
            match pySub0 results with
            | .error e => .error e
            | .ok movie =>
              if movie.isObj then
                let poster_path := jget movie "poster_path"
                let poster_url : JVal :=
                  if pyTruthy poster_path then
                    .str ("https://image.tmdb.org/t/p/w500" ++ pyStrF poster_path)
                  else .null
                .ok (some
                  [("title", .str title),
                   ("tmdb_title", jget movie "title"),
                   ("poster_url", poster_url),
                   ("overview", jget movie "overview"),
                   ("release_date", jget movie "release_date"),
                   ("vote_average", jget movie "vote_average"),
                   ("tmdb_id", jget movie "id")])
              else .error ()
          else .ok none
      else .ok none

/-- `LLMMotor._get_movie_info`: total (the `except Exception` clause catches
every failure of the try block), returning the populated dict on success and
the placeholder dict on the no-credential path and on every failure. -/
def get_movie_info (key : Option String) (resp : Except Unit JVal)
    (title : String) : Dict :=
  if pyKeyFalsy key then placeholderInfo title
  else
    match get_movie_info_try resp title with
    | .ok (some d) => d
    | _ => placeholderInfo title

/-! ## Title extraction (`_enhance_with_movie_details`, lines 88–107)

The two regex tiers are embedded as character-list scanners that reproduce
Python `re.findall` semantics (left-to-right, non-overlapping, leftmost
match, alternation tried left to right, lazy `+?`, `re.MULTILINE` anchors)
for the two concrete patterns in the source. -/

/-- `\d` on the ASCII fragment the claims exercise. -/
def isPyDigit (c : Char) : Bool := '0' ≤ c && c ≤ '9'

/-- `[A-Z]`. -/
def isPyUpper (c : Char) : Bool := 'A' ≤ c && c ≤ 'Z'

/-- `\s`, and the characters stripped by `str.strip()` (ASCII fragment). -/
def isPySpace (c : Char) : Bool :=
  c = ' ' || c = '\t' || c = '\n' || c = '\r' || c = '\x0b' || c = '\x0c'

/-- Python `title.strip()`. -/
def pyStrip (s : String) : String :=
  String.mk (((s.toList.dropWhile isPySpace).reverse.dropWhile isPySpace).reverse)

/-- `re.findall(r hyphen quoted pattern, response)` for the pattern
matching a double quote, one or more non-quote characters, and a closing
double quote, returning the captured spans in order.  The fuel argument is
an upper bound on the scan length; the wrapper passes the string length. -/
def findQuotedF : Nat → List Char → List String
  | 0, _ => []
  | _, [] => []
  | fuel + 1, c :: rest =>
    if c = '"' then
      let run := rest.takeWhile (fun d => d ≠ '"')
      let rest2 := rest.dropWhile (fun d => d ≠ '"')
      match rest2 with
      | [] => []
      | _ :: tail =>
        if run.isEmpty then findQuotedF fuel rest2
        else String.mk run :: findQuotedF fuel tail
    else findQuotedF fuel rest

/-- The quoted-span tier: `re.findall` of the quoted pattern (line 91). -/
def quotedFindall (s : String) : List String :=
  findQuotedF s.length s.toList

/-- `[^\.!?]` excludes exactly these three characters. -/
def badCaptureChar (c : Char) : Bool := c = '.' || c = '!' || c = '?'

/-- The zero-width lookahead of the structural pattern: whitespace then an
opening parenthesis, or whitespace then a dash, or a literal dot, or a
MULTILINE end of line. -/
def lookaheadOk (l : List Char) : Bool :=
  match l with
  | [] => true
  | c :: _ =>
    if c = '.' then true
    else if c = '\n' then true
    else
      let r := l.dropWhile isPySpace
      !(l.takeWhile isPySpace).isEmpty &&
        (r.head? = some '(' || r.head? = some '-')

/-- The lazy `[^\.!?]+?` extension of a capture that started with the
uppercase character `u`: consume one character at a time, stopping at the
first position where the lookahead holds; fail on a forbidden character or
when no character can be consumed. -/
def extLoop (u : Char) : List Char → List Char → Option (List Char × List Char)
  | _, [] => none
  | acc, c :: rest =>
    if badCaptureChar c then none
    else if lookaheadOk rest then some (u :: (acc ++ [c]), rest)
    else extLoop u (acc ++ [c]) rest

/-- `([A-Z][^\.!?]+?)` followed by the lookahead, at the head of `l`:
returns the captured span and the remainder after it. -/
def captureFrom (l : List Char) : Option (List Char × List Char) :=
  match l with
  | [] => none
  | c :: rest => if isPyUpper c then extLoop c [] rest else none

/-- The `\d+\.\s+` alternative of the prefix group: a maximal nonempty
digit run, a dot, then a nonempty whitespace run; returns the remainder. -/
def numDotMarker (l : List Char) : Option (List Char) :=
  if (l.takeWhile isPyDigit).isEmpty then none
  else
    match l.dropWhile isPyDigit with
    | '.' :: r2 =>
      if (r2.takeWhile isPySpace).isEmpty then none
      else some (r2.dropWhile isPySpace)
    | _ => none

/-- The `\:\s+` alternative of the prefix group. -/
def colonMarker (l : List Char) : Option (List Char) :=
  match l with
  | ':' :: r2 =>
    if (r2.takeWhile isPySpace).isEmpty then none
    else some (r2.dropWhile isPySpace)
  | _ => none

/-- Try the whole structural pattern at one scan position, alternatives in
source order: the MULTILINE `^` anchor (valid when `atStart`), then the
enumeration-marker prefix, then the colon prefix. -/
def structMatchAt (atStart : Bool) (l : List Char) :
    Option (List Char × List Char) :=
  match (if atStart then captureFrom l else none) with
  | some r => some r
  | none =>
    match (match numDotMarker l with
           | some l1 => captureFrom l1
           | none => none) with
    | some r => some r
    | none =>
      match colonMarker l with
      | some l2 => captureFrom l2
      | none => none

/-- The `re.findall` scan of the structural pattern: try each position left
to right, emit the capture and resume after it on a match, else advance one
character, tracking whether the next position starts a line. -/
def structScanF : Nat → Bool → List Char → List String
  | 0, _, _ => []
  | _, _, [] => []
  | fuel + 1, atStart, c :: rest =>
    match structMatchAt atStart (c :: rest) with
    | some (cap, rem) =>
      String.mk cap :: structScanF fuel (cap.getLast? = some '\n') rem
    | none => structScanF fuel (c = '\n') rest

/-- The structural fallback tier: `re.findall` of the structural pattern
with `re.MULTILINE` (line 96). -/
def structFindall (s : String) : List String :=
  structScanF s.length true s.toList

/-- Lines 91–96: the quoted tier, with the structural tier consulted only
when the quoted tier found nothing. -/
def extract_candidates (text : String) : List String :=
  let movie_titles := quotedFindall text
  if movie_titles.isEmpty then structFindall text else movie_titles

/-- The `enhanced_data` dict built by `_enhance_with_movie_details`. -/
structure Enhanced where
  original_response : String
  movies : List Dict

/-- `LLMMotor._enhance_with_movie_details` (lines 88–107): extract
candidates, strip each, keep those longer than 3 characters, look each up
and append the (always truthy) info dict.  `cat` gives the catalog response
for each queried title. -/
def enhance_with_movie_details (key : Option String)
    (cat : String → Except Unit JVal) (response : String) : Enhanced :=
  { original_response := response,
    movies := ((extract_candidates response).map pyStrip).filterMap
      (fun title =>
        if title.length > 3 then
          let movie_info := get_movie_info key (cat title) title
          if movie_info.isEmpty then none else some movie_info
        else none) }

/-! ## Conversation state (`ConversationBufferMemory`, `generate_response`,
`clear_memory`, `start_new_conversation`, `get_available_models`) -/

/-- The role of a message in the buffer memory (`HumanMessage` or
`AIMessage`). -/
inductive Role where
  | user : Role
  | assistant : Role
deriving DecidableEq

/-- One message of `self.memory.chat_memory.messages`. -/
structure Turn where
  role : Role
  content : String
deriving DecidableEq

/-- A raised Python exception: `ValueError(msg)` or any other exception
(carrying its message). -/
inductive PyErr where
  | valueError : String → PyErr
  | exc : String → PyErr
deriving DecidableEq

/-- `LLMMotor.generate_response` (lines 58–86).  `oracle` is the
`movie_agent.invoke` call on the current message list, returning the reply
content or raising; the turn log is threaded explicitly.  The result pairs
the returned value (or propagated exception) with the final turn log. -/
def generate_response (oracle : List Turn → Except PyErr String)
    (key : Option String) (cat : String → Except Unit JVal)
    (memory : List Turn) (prompt : JVal) :
    Except PyErr Enhanced × List Turn :=
  if !pyTruthy prompt || !prompt.isStr then
    (.error (.valueError "Invalid prompt"), memory)
  else
    let memory1 := memory ++ [⟨Role.user, prompt.asStr⟩]
    match oracle memory1 with
    | .error e => (.error e, memory1)
    | .ok content =>
      let memory2 := memory1 ++ [⟨Role.assistant, content⟩]
      (.ok (enhance_with_movie_details key cat content), memory2)

/-- `LLMMotor.clear_memory` (lines 151–158): `self.memory.clear()`. -/
def clear_memory (_memory : List Turn) : List Turn := []

/-- The fixed opening message of `start_new_conversation` (line 169). -/
def openingMessage : String :=
  "Hello! I\x27m your movie recommendation assistant. How can I help you find something great to watch today?"

/-- `LLMMotor.start_new_conversation` (lines 160–174): clear the memory,
append the fixed opening message as an assistant turn, return it. -/
def start_new_conversation (memory : List Turn) : String × List Turn :=
  let memory1 := clear_memory memory
  (openingMessage, memory1 ++ [⟨Role.assistant, openingMessage⟩])

/-- One entry of `client.models.list().data`. -/
structure ProviderModel where
  id : String

/-- `get_available_models` (lines 176–196): on a provider failure the
exception is logged and re-raised; on success the model identifiers are
filtered to those starting with "gpt", in provider order. -/
def get_available_models (resp : Except Unit (List ProviderModel)) :
    Except Unit (List String) :=
  match resp with
  | .error e => .error e
  | .ok models =>
    .ok ((models.filter (fun m => m.id.startsWith "gpt")).map (fun m => m.id))

/-- The stripped candidates that pass the `len(title) > 3` post-filter of
the extraction loop (lines 100–102): exactly the titles that are looked up
and yield a record. -/
def survivingTitles (text : String) : List String :=
  ((extract_candidates text).map pyStrip).filter (fun t => t.length > 3)

/-! ## Helper lemmas -/

theorem get_movie_info_try_ok_ne_nil {resp : Except Unit JVal}
    {title : String} {d : Dict}
    (h : get_movie_info_try resp title = .ok (some d)) : d ≠ [] := by
  unfold get_movie_info_try at h
  repeat' split at h
  all_goals (try simp_all)
  all_goals (subst h; simp)

theorem get_movie_info_ne_nil (key : Option String) (resp : Except Unit JVal)
    (title : String) : (get_movie_info key resp title).isEmpty = false := by
  unfold get_movie_info
  by_cases hk : pyKeyFalsy key = true
  · simp [hk, placeholderInfo]
  · simp only [hk, if_false, Bool.false_eq_true]
    split
    · rename_i d hd
      have hne := get_movie_info_try_ok_ne_nil hd
      cases d with
      | nil => exact absurd rfl hne
      | cons x xs => rfl
    · simp [placeholderInfo]

theorem enhance_movies_eq (key : Option String)
    (cat : String → Except Unit JVal) (response : String) :
    (enhance_with_movie_details key cat response).movies =
      (survivingTitles response).map (fun t => get_movie_info key (cat t) t) := by
  show ((extract_candidates response).map pyStrip).filterMap
      (fun title =>
        if title.length > 3 then
          let movie_info := get_movie_info key (cat title) title
          if movie_info.isEmpty then none else some movie_info
        else none) =
    (survivingTitles response).map (fun t => get_movie_info key (cat t) t)
  unfold survivingTitles
  generalize (extract_candidates response).map pyStrip = l
  induction l with
  | nil => rfl
  | cons t ts ih =>
    simp only [List.filterMap_cons, List.filter_cons]
    by_cases hlen : t.length > 3
    · have hne := get_movie_info_ne_nil key (cat t) t
      simp [hlen, hne, ih]
    · simp [hlen, ih]

theorem extract_candidates_of_quoted (text : String)
    (h : quotedFindall text ≠ []) :
    extract_candidates text = quotedFindall text := by
  unfold extract_candidates
  cases hq : quotedFindall text with
  | nil => exact absurd hq h
  | cons a l => simp

/-! ## Claims -/

/-- C1: for every non-empty string prompt, when the model invocation inside
`generate_response` raises, the exception propagates to the caller
unchanged and the turn log has grown by exactly the one User turn carrying
the prompt — no Assistant turn is appended, and the user's utterance is
retained.  The conclusion holds for every catalog configuration. -/
theorem C1_model_failure_keeps_user_turn
    (oracle : List Turn → Except PyErr String) (key : Option String)
    (cat : String → Except Unit JVal) (memory : List Turn) (s : String)
    (e : PyErr) (hs : s ≠ "")
    (hfail : oracle (memory ++ [⟨Role.user, s⟩]) = .error e) :
    generate_response oracle key cat memory (.str s) =
      (.error e, memory ++ [⟨Role.user, s⟩]) := by
  unfold generate_response
  have ht : pyTruthy (JVal.str s) = true := by simp [pyTruthy, hs]
  simp [ht, JVal.isStr, JVal.asStr, hfail]

theorem C1_witness :
    "hi" ≠ "" ∧
    (fun _ : List Turn => (Except.error (PyErr.exc "boom") : Except PyErr String))
        ([] ++ [⟨Role.user, "hi"⟩]) = .error (.exc "boom") ∧
    generate_response
        (fun _ => .error (.exc "boom")) none (fun _ => .error ()) []
        (.str "hi") =
      (.error (.exc "boom"), [] ++ [⟨Role.user, "hi"⟩]) :=
  ⟨by decide, rfl,
    C1_model_failure_keeps_user_turn
      (fun _ => .error (.exc "boom")) none (fun _ => .error ()) [] "hi"
      (.exc "boom") (by decide) rfl⟩

/-- C7: an empty prompt (or a non-string one) is rejected with the
`ValueError "Invalid prompt"` raised before any state mutation: the memory
in the result is exactly the memory before the call, and the result does
not depend on the model oracle (it is the same for every `oracle`), so no
model invocation occurs. -/
theorem C7_invalid_prompt_no_mutation
    (oracle : List Turn → Except PyErr String) (key : Option String)
    (cat : String → Except Unit JVal) (memory : List Turn) (prompt : JVal)
    (h : pyTruthy prompt = false ∨ prompt.isStr = false) :
    generate_response oracle key cat memory prompt =
      (.error (.valueError "Invalid prompt"), memory) := by
  unfold generate_response
  rcases h with h | h <;> simp [h]

theorem C7_witness :
    (pyTruthy (JVal.num 5) = false ∨ JVal.isStr (JVal.num 5) = false) ∧
    generate_response (fun _ => .ok "reply") none (fun _ => .error ())
        [⟨Role.assistant, "old"⟩] (JVal.num 5) =
      (.error (.valueError "Invalid prompt"), [⟨Role.assistant, "old"⟩]) :=
  ⟨Or.inr rfl,
    C7_invalid_prompt_no_mutation (fun _ => .ok "reply") none
      (fun _ => .error ()) [⟨Role.assistant, "old"⟩] (JVal.num 5)
      (Or.inr rfl)⟩

/-- C8: `start_new_conversation` first clears the memory, appends the one
fixed opening assistant message, and returns it verbatim; it is a pure
function of no inputs but the (discarded) previous memory, hence
deterministic and model-free, and after `clear_memory` followed by
`start_new_conversation` the session holds exactly one Assistant turn and
zero User turns. -/
theorem C8_start_conversation_fresh_session (memory : List Turn) :
    start_new_conversation (clear_memory memory) =
      (openingMessage, [⟨Role.assistant, openingMessage⟩]) ∧
    start_new_conversation memory =
      (openingMessage, [⟨Role.assistant, openingMessage⟩]) ∧
    ((start_new_conversation memory).2.filter
      (fun t => t.role = Role.assistant)).length = 1 ∧
    ((start_new_conversation memory).2.filter
      (fun t => t.role = Role.user)).length = 0 :=
  ⟨rfl, rfl, rfl, rfl⟩

/-- C9: `get_available_models` returns, in provider order, exactly the
identifiers of the provider's model list that start with "gpt", filtering
out all others; a provider failure is re-raised unchanged.  The function
takes no session state at all. -/
theorem C9_available_models_filter :
    (∀ models : List ProviderModel,
      get_available_models (.ok models) =
        .ok (((models.map (fun m => m.id)).filter
          (fun i => i.startsWith "gpt")))) ∧
    (∀ e : Unit, get_available_models (.error e) = .error e) := by
  constructor
  · intro models
    unfold get_available_models
    rw [List.filter_map]
    rfl
  · intro e
    rfl

/-- C2 (counterexample): the claim as stated is false at the concrete title
"Arrival" — with no configured credential the returned dict is
`{"title": ..., "poster_url": None, "overview": None}`, so the
canonical-title key `tmdb_title` (like `release_date`, `vote_average` and
`tmdb_id`) is not present with a null value: it is absent from the record
altogether. -/
theorem C2_counterexample :
    ¬ (dlookup (get_movie_info none (.error ()) "Arrival") "title"
          = some (.str "Arrival") ∧
       dlookup (get_movie_info none (.error ()) "Arrival") "tmdb_title"
          = some .null ∧
       dlookup (get_movie_info none (.error ()) "Arrival") "poster_url"
          = some .null ∧
       dlookup (get_movie_info none (.error ()) "Arrival") "overview"
          = some .null ∧
       dlookup (get_movie_info none (.error ()) "Arrival") "release_date"
          = some .null ∧
       dlookup (get_movie_info none (.error ()) "Arrival") "vote_average"
          = some .null ∧
       dlookup (get_movie_info none (.error ()) "Arrival") "tmdb_id"
          = some .null) :=
  fun h =>
    Option.noConfusion
      ((rfl : dlookup (get_movie_info none (.error ()) "Arrival") "tmdb_title"
          = none).symm.trans h.2.1)

/-- C2 (amended): with no configured catalog credential (absent or empty),
`_get_movie_info` returns exactly the three-key dict
`{"title": title, "poster_url": None, "overview": None}`: `queried_title`
equals the input, `poster_url` and `overview` are present with a null
value, and `canonical_title`, `release_date`, `rating` and `catalog_id`
are absent from the record (reading them yields nothing), for every
catalog behavior; the function is total, so the call never raises. -/
theorem C2_no_credential_record (key : Option String)
    (resp : Except Unit JVal) (title : String)
    (hkey : pyKeyFalsy key = true) :
    get_movie_info key resp title =
      [("title", .str title), ("poster_url", .null), ("overview", .null)] ∧
    dlookup (get_movie_info key resp title) "title" = some (.str title) ∧
    dlookup (get_movie_info key resp title) "poster_url" = some .null ∧
    dlookup (get_movie_info key resp title) "overview" = some .null ∧
    dlookup (get_movie_info key resp title) "tmdb_title" = none ∧
    dlookup (get_movie_info key resp title) "release_date" = none ∧
    dlookup (get_movie_info key resp title) "vote_average" = none ∧
    dlookup (get_movie_info key resp title) "tmdb_id" = none := by
  have hd : get_movie_info key resp title = placeholderInfo title := by
    unfold get_movie_info
    simp [hkey]
  rw [hd]
  refine ⟨rfl, ?_, ?_, ?_, ?_, ?_, ?_, ?_⟩ <;> simp [placeholderInfo, dlookup]

theorem C2_witness :
    pyKeyFalsy none = true ∧
    get_movie_info none (.error ()) "Arrival" =
      [("title", .str "Arrival"), ("poster_url", .null), ("overview", .null)] :=
  ⟨rfl, (C2_no_credential_record none (.error ()) "Arrival" rfl).1⟩

/-- C3: `_get_movie_info` never raises (it is a total function into `Dict`),
and on a network failure (the request or its JSON decoding raises), a
malformed catalog response (not a JSON object, a falsy or length-less
`results` value) or an empty result set, it returns the very record the
no-credential path returns: the degraded placeholder with `queried_title`
populated. -/
theorem C3_resolver_degrades (key : Option String)
    (resp : Except Unit JVal) (title : String)
    (h : resp = .error () ∨
         (∃ d, resp = .ok d ∧ d.isObj = false) ∨
         (∃ d, resp = .ok d ∧ d.isObj = true ∧
            pyTruthy (jget d "results") = false) ∨
         (∃ d, resp = .ok d ∧ d.isObj = true ∧
            pyLenE (jget d "results") = .error ())) :
    get_movie_info key resp title = get_movie_info none (.error ()) title ∧
    get_movie_info key resp title = placeholderInfo title := by
  have hmain : get_movie_info key resp title = placeholderInfo title := by
    by_cases hk : pyKeyFalsy key = true
    · unfold get_movie_info
      simp [hk]
    · rcases h with rfl | ⟨d, rfl, hd⟩ | ⟨d, rfl, hobj, hres⟩ | ⟨d, rfl, hobj, hlen⟩
      · simp [get_movie_info, hk, get_movie_info_try]
      · cases d <;> simp_all [get_movie_info, get_movie_info_try, pyGet, JVal.isObj]
      · cases d <;>
          simp_all [get_movie_info, get_movie_info_try, pyGet, jget, JVal.isObj]
      · cases d with
        | obj kvs =>
          by_cases ht : pyTruthy (jget (.obj kvs) "results") = true <;>
            simp_all [get_movie_info, get_movie_info_try, pyGet, jget, JVal.isObj]
        | _ => simp_all [JVal.isObj]
  exact ⟨hmain.trans rfl, hmain⟩

theorem C3_witness :
    ((Except.error () : Except Unit JVal) = .error () ∨
     (∃ d, (Except.error () : Except Unit JVal) = .ok d ∧ d.isObj = false) ∨
     (∃ d, (Except.error () : Except Unit JVal) = .ok d ∧ d.isObj = true ∧
        pyTruthy (jget d "results") = false) ∨
     (∃ d, (Except.error () : Except Unit JVal) = .ok d ∧ d.isObj = true ∧
        pyLenE (jget d "results") = .error ())) ∧
    get_movie_info (some "k") (.error ()) "Arrival" =
      get_movie_info none (.error ()) "Arrival" ∧
    get_movie_info (some "k") (.error ()) "Arrival" =
      placeholderInfo "Arrival" :=
  ⟨Or.inl rfl, C3_resolver_degrades (some "k") (.error ()) "Arrival" (Or.inl rfl)⟩

/-- C4: whenever the quoted-span tier yields at least one candidate, the
extraction result is exactly that tier's output — the structural tier is
never consulted, contributes nothing, and the two tiers are never merged —
and the enriched records are built from the quoted-tier candidates alone. -/
theorem C4_quoted_tier_exclusive (key : Option String)
    (cat : String → Except Unit JVal) (text : String)
    (h : quotedFindall text ≠ []) :
    extract_candidates text = quotedFindall text ∧
    survivingTitles text =
      ((quotedFindall text).map pyStrip).filter (fun t => t.length > 3) ∧
    (enhance_with_movie_details key cat text).movies =
      (((quotedFindall text).map pyStrip).filter
        (fun t => t.length > 3)).map (fun t => get_movie_info key (cat t) t) := by
  have h1 := extract_candidates_of_quoted text h
  have h2 : survivingTitles text =
      ((quotedFindall text).map pyStrip).filter (fun t => t.length > 3) := by
    unfold survivingTitles
    rw [h1]
  exact ⟨h1, h2, (enhance_movies_eq key cat text).trans (by rw [h2])⟩

theorem C4_witness :
    quotedFindall "He said \"Coherence\" to me" ≠ [] ∧
    (extract_candidates "He said \"Coherence\" to me" =
        quotedFindall "He said \"Coherence\" to me" ∧
      survivingTitles "He said \"Coherence\" to me" =
        ((quotedFindall "He said \"Coherence\" to me").map pyStrip).filter
          (fun t => t.length > 3) ∧
      (enhance_with_movie_details none (fun _ => .error ())
          "He said \"Coherence\" to me").movies =
        (((quotedFindall "He said \"Coherence\" to me").map pyStrip).filter
          (fun t => t.length > 3)).map
            (fun t => get_movie_info none ((fun _ => .error ()) t) t)) :=
  ⟨by decide,
    C4_quoted_tier_exclusive none (fun _ => .error ())
      "He said \"Coherence\" to me" (by decide)⟩

/-- C5: on the quoteless input `"1. Arrival (2016)\n2. Annihilation - a
great watch"` the quoted tier finds nothing, extraction falls back to the
structural tier, and the result — before and after the length post-filter —
is exactly `["Arrival", "Annihilation"]`. -/
theorem C5_structural_fallback_example :
    quotedFindall "1. Arrival (2016)\n2. Annihilation - a great watch" = [] ∧
    structFindall "1. Arrival (2016)\n2. Annihilation - a great watch" =
      ["Arrival", "Annihilation"] ∧
    extract_candidates "1. Arrival (2016)\n2. Annihilation - a great watch" =
      ["Arrival", "Annihilation"] ∧
    survivingTitles "1. Arrival (2016)\n2. Annihilation - a great watch" =
      ["Arrival", "Annihilation"] :=
  ⟨rfl, rfl, rfl, rfl⟩

/-- C6: the `movies` sequence of the enhanced response holds exactly one
info record per stripped candidate that passes the `len > 3` post-filter,
in extraction (first-appearance) order, duplicates preserved, and no
surviving candidate is ever dropped: a failed lookup contributes the
degraded record, never an omitted one (`_get_movie_info` always returns a
truthy dict, so the `if movie_info:` guard never filters). -/
theorem C6_one_record_per_surviving_title (key : Option String)
    (cat : String → Except Unit JVal) (text : String) :
    (enhance_with_movie_details key cat text).movies =
      (survivingTitles text).map (fun t => get_movie_info key (cat t) t) :=
  enhance_movies_eq key cat text

/-- C10: when the quoted tier yields at least one candidate but every
candidate strips to length at most 3, tier selection happens before the
post-filter: the quoted tier wins, the post-filter then discards all of
its candidates, and the final output is empty — the structural tier is
never consulted even when it would have matched. -/
theorem C10_short_quotes_empty_output (key : Option String)
    (cat : String → Except Unit JVal) (text : String)
    (h1 : quotedFindall text ≠ [])
    (h2 : ∀ t ∈ quotedFindall text, (pyStrip t).length ≤ 3) :
    extract_candidates text = quotedFindall text ∧
    survivingTitles text = [] ∧
    (enhance_with_movie_details key cat text).movies = [] := by
  have he := extract_candidates_of_quoted text h1
  have hs : survivingTitles text = [] := by
    unfold survivingTitles
    rw [he, List.filter_eq_nil_iff]
    intro a ha
    rcases List.mem_map.mp ha with ⟨t, ht, rfl⟩
    have := h2 t ht
    simp
    omega
  refine ⟨he, hs, ?_⟩
  rw [enhance_movies_eq, hs]
  rfl

theorem C10_witness :
    quotedFindall "1. Arrival (2016) - \"ok\"" ≠ [] ∧
    (∀ t ∈ quotedFindall "1. Arrival (2016) - \"ok\"",
      (pyStrip t).length ≤ 3) ∧
    (extract_candidates "1. Arrival (2016) - \"ok\"" =
        quotedFindall "1. Arrival (2016) - \"ok\"" ∧
      survivingTitles "1. Arrival (2016) - \"ok\"" = [] ∧
      (enhance_with_movie_details none (fun _ => .error ())
          "1. Arrival (2016) - \"ok\"").movies = []) :=
  ⟨by decide, by decide,
    C10_short_quotes_empty_output none (fun _ => .error ())
      "1. Arrival (2016) - \"ok\"" (by decide) (by decide)⟩

end WhatToWatch
